import Mathlib

/-!
Verification of the fitness-tracker calculation core (`homework.py`).

The Python classes are embedded shallowly: each class becomes a structure
over `ℚ` (exact rational arithmetic standing for Python floats), each method
a Lean function with the same name, numeric literals carried over verbatim
as rationals.  Division in Python raises `ZeroDivisionError` on a zero
denominator; alongside the total `ℚ` versions (where `x / 0 = 0`) we define
checked `Option`-valued versions (`qdiv?`) that return `none` exactly when
Python would raise, mirroring the order of the divisions in the source.
`read_package` becomes an `Except`-valued function whose error constructors
record which Python exception (`KeyError` from the enum lookup, `TypeError`
from the constructor call) was wrapped into `IncorrectInputDataError`.
-/

/-- Python `float(x)` values are modelled as exact rationals. -/
abbrev PyFloat := ℚ

/-- The dataclass `InfoMessage`: training type name plus the four numeric
fields packaged by `show_training_info`. -/
structure InfoMessage where
  training_type : String
  duration : PyFloat
  distance : PyFloat
  speed : PyFloat
  calories : PyFloat
  deriving DecidableEq

/-- Base class `Training`: fields `action`, `duration`, `weight`. -/
structure Training where
  action : PyFloat
  duration : PyFloat
  weight : PyFloat
  deriving DecidableEq

namespace Training

/-- Class attribute `LEN_STEP = 0.65` of `Training`. -/
def LEN_STEP : ℚ := 65 / 100

/-- Class attribute `M_IN_KM = 1000`. -/
def M_IN_KM : ℚ := 1000

/-- Class attribute `MIN_IN_H = 60`. -/
def MIN_IN_H : ℚ := 60

/-- `Training.get_distance`: `self.action * self.LEN_STEP / self.M_IN_KM`. -/
def get_distance (t : Training) : ℚ :=
  t.action * LEN_STEP / M_IN_KM

/-- `Training.get_mean_speed`: `self.get_distance() / self.duration`. -/
def get_mean_speed (t : Training) : ℚ :=
  t.get_distance / t.duration

end Training

/-- Subclass `Running` adds no fields. -/
structure Running extends Training where
  deriving DecidableEq

namespace Running

/-- Class attribute `CALORIES_MEAN_SPEED_MULTIPLIER = 18`. -/
def CALORIES_MEAN_SPEED_MULTIPLIER : ℚ := 18

/-- Class attribute `CALORIES_MEAN_SPEED_SHIFT = 1.79`. -/
def CALORIES_MEAN_SPEED_SHIFT : ℚ := 179 / 100

/-- `Running.get_spent_calories`. -/
def get_spent_calories (r : Running) : ℚ :=
  (CALORIES_MEAN_SPEED_MULTIPLIER * r.toTraining.get_mean_speed
      + CALORIES_MEAN_SPEED_SHIFT)
    * r.weight / Training.M_IN_KM * r.duration * Training.MIN_IN_H

end Running

/-- Subclass `SportsWalking` adds the field `height`. -/
structure SportsWalking extends Training where
  height : PyFloat
  deriving DecidableEq

namespace SportsWalking

/-- Class attribute `CALORIES_WEIGHT_MULTIPLIER = 0.035`. -/
def CALORIES_WEIGHT_MULTIPLIER : ℚ := 35 / 1000

/-- Class attribute `CALORIES_SPEED_HEIGHT_MULTIPLIER = 0.029`. -/
def CALORIES_SPEED_HEIGHT_MULTIPLIER : ℚ := 29 / 1000

/-- Class attribute `KMH_IN_MSEC = 0.278`. -/
def KMH_IN_MSEC : ℚ := 278 / 1000

/-- Class attribute `CM_IN_M = 100`. -/
def CM_IN_M : ℚ := 100

/-- `SportsWalking.get_spent_calories`. -/
def get_spent_calories (w : SportsWalking) : ℚ :=
  (CALORIES_WEIGHT_MULTIPLIER * w.weight
      + ((w.toTraining.get_mean_speed * KMH_IN_MSEC) ^ 2
            / (w.height / CM_IN_M))
        * CALORIES_SPEED_HEIGHT_MULTIPLIER
        * w.weight)
    * w.duration * Training.MIN_IN_H

end SportsWalking

/-- Subclass `Swimming` adds `length_pool` and `count_pool` and overrides
the class attribute `LEN_STEP`. -/
structure Swimming extends Training where
  length_pool : PyFloat
  count_pool : PyFloat
  deriving DecidableEq

namespace Swimming

/-- Class attribute `MEAN_SPEED_SHIFT = 1.1`. -/
def MEAN_SPEED_SHIFT : ℚ := 11 / 10

/-- Class attribute `WEIGHT_MULTIPLIER = 2`. -/
def WEIGHT_MULTIPLIER : ℚ := 2

/-- Overridden class attribute `LEN_STEP = 1.38` of `Swimming`. -/
def LEN_STEP : ℚ := 138 / 100

/-- The `get_distance` method `Swimming` inherits from `Training`,
looked up with the overridden `LEN_STEP` class attribute. -/
def get_distance (s : Swimming) : ℚ :=
  s.action * Swimming.LEN_STEP / Training.M_IN_KM

/-- `Swimming.get_mean_speed`:
`self.length_pool * self.count_pool / self.M_IN_KM / self.duration`. -/
def get_mean_speed (s : Swimming) : ℚ :=
  s.length_pool * s.count_pool / Training.M_IN_KM / s.duration

/-- `Swimming.get_spent_calories`. -/
def get_spent_calories (s : Swimming) : ℚ :=
  (s.get_mean_speed + MEAN_SPEED_SHIFT)
    * WEIGHT_MULTIPLIER
    * s.weight
    * s.duration

end Swimming

/-- `type(self).__name__` applied in `show_training_info`: for `Running`
the class name is the string "Running". -/
def Running.show_training_info (r : Running) : InfoMessage :=
  ⟨"Running", r.duration, r.toTraining.get_distance,
    r.toTraining.get_mean_speed, r.get_spent_calories⟩

/-- `show_training_info` for `SportsWalking` (class name "SportsWalking"). -/
def SportsWalking.show_training_info (w : SportsWalking) : InfoMessage :=
  ⟨"SportsWalking", w.duration, w.toTraining.get_distance,
    w.toTraining.get_mean_speed, w.get_spent_calories⟩

/-- `show_training_info` for `Swimming` (class name "Swimming"); the
inherited `get_distance` sees the overridden `LEN_STEP`, and the
overridden `get_mean_speed` and `get_spent_calories` are dispatched. -/
def Swimming.show_training_info (s : Swimming) : InfoMessage :=
  ⟨"Swimming", s.duration, s.get_distance,
    s.get_mean_speed, s.get_spent_calories⟩

/-- A constructed training object is one of the three concrete classes. -/
inductive TrainingVariant where
  | run : Running → TrainingVariant
  | wlk : SportsWalking → TrainingVariant
  | swm : Swimming → TrainingVariant
  deriving DecidableEq

/-- Virtual dispatch of `show_training_info` on the dynamic class. -/
def TrainingVariant.show_training_info : TrainingVariant → InfoMessage
  | .run r => r.show_training_info
  | .wlk w => w.show_training_info
  | .swm s => s.show_training_info

/-- `IncorrectInputDataError`, tagged with the Python exception that
`read_package` caught and wrapped: `KeyError` when the workout-type code is
not a member of the `WorkoutTypes` enum, `TypeError` when the unpacked
argument list does not match the constructor arity. -/
inductive IncorrectInputDataError where
  | keyError (workout_type : String) : IncorrectInputDataError
  | typeError : IncorrectInputDataError
  deriving DecidableEq

/-- `read_package`: looks the code up in `WorkoutTypes` (members RUN, WLK,
SWM) and calls the class constructor with the unpacked data list.  A missing
enum member raises `KeyError`, an argument count not matching the
constructor (3 for `Running`, 4 for `SportsWalking`, 5 for `Swimming`)
raises `TypeError`; both are wrapped into `IncorrectInputDataError`. -/
def read_package (workout_type : String) (data : List PyFloat) :
    Except IncorrectInputDataError TrainingVariant :=
  if workout_type = "RUN" then
    match data with
    | [a, d, w] => .ok (.run ⟨⟨a, d, w⟩⟩)
    | _ => .error .typeError
  else if workout_type = "WLK" then
    match data with
    | [a, d, w, h] => .ok (.wlk ⟨⟨a, d, w⟩, h⟩)
    | _ => .error .typeError
  else if workout_type = "SWM" then
    match data with
    | [a, d, w, l, c] => .ok (.swm ⟨⟨a, d, w⟩, l, c⟩)
    | _ => .error .typeError
  else
    .error (.keyError workout_type)

/-! ## Checked evaluation

Python raises `ZeroDivisionError` when a denominator is `0.0`.  The
checked versions below thread each division of the source through `qdiv?`,
returning `none` exactly when the Python computation would raise. -/

/-- Checked division: `none` when the denominator is zero, as Python
float division raises `ZeroDivisionError` there. -/
def qdiv? (a b : ℚ) : Option ℚ :=
  if b = 0 then none else some (a / b)

/-- Checked `Training.get_distance` (denominator `M_IN_KM`). -/
def Training.get_distance? (t : Training) : Option ℚ :=
  qdiv? (t.action * Training.LEN_STEP) Training.M_IN_KM

/-- Checked `Training.get_mean_speed` (denominator `self.duration`). -/
def Training.get_mean_speed? (t : Training) : Option ℚ :=
  t.get_distance? >>= fun dist => qdiv? dist t.duration

/-- Checked `Running.get_spent_calories`: its only divisions are inside
`get_mean_speed` and by the constant `M_IN_KM`. -/
def Running.get_spent_calories? (r : Running) : Option ℚ :=
  r.toTraining.get_mean_speed? >>= fun v =>
  qdiv? ((Running.CALORIES_MEAN_SPEED_MULTIPLIER * v
      + Running.CALORIES_MEAN_SPEED_SHIFT) * r.weight) Training.M_IN_KM
    >>= fun x =>
  some (x * r.duration * Training.MIN_IN_H)

/-- Checked `SportsWalking.get_spent_calories`: divisions by `CM_IN_M`
and by `self.height / self.CM_IN_M`, after the mean-speed divisions. -/
def SportsWalking.get_spent_calories? (w : SportsWalking) : Option ℚ :=
  w.toTraining.get_mean_speed? >>= fun v =>
  qdiv? w.height SportsWalking.CM_IN_M >>= fun hm =>
  qdiv? ((v * SportsWalking.KMH_IN_MSEC) ^ 2) hm >>= fun x =>
  some ((SportsWalking.CALORIES_WEIGHT_MULTIPLIER * w.weight
      + x * SportsWalking.CALORIES_SPEED_HEIGHT_MULTIPLIER * w.weight)
    * w.duration * Training.MIN_IN_H)

/-- Checked `get_distance` as inherited by `Swimming` (overridden
`LEN_STEP`, denominator `M_IN_KM`). -/
def Swimming.get_distance? (s : Swimming) : Option ℚ :=
  qdiv? (s.action * Swimming.LEN_STEP) Training.M_IN_KM

/-- Checked `Swimming.get_mean_speed` (denominators `M_IN_KM` then
`self.duration`). -/
def Swimming.get_mean_speed? (s : Swimming) : Option ℚ :=
  qdiv? (s.length_pool * s.count_pool) Training.M_IN_KM >>= fun x =>
  qdiv? x s.duration

/-- Checked `Swimming.get_spent_calories` (divisions only inside
`get_mean_speed`). -/
def Swimming.get_spent_calories? (s : Swimming) : Option ℚ :=
  s.get_mean_speed? >>= fun v =>
  some ((v + Swimming.MEAN_SPEED_SHIFT) * Swimming.WEIGHT_MULTIPLIER
    * s.weight * s.duration)

/-- Checked `show_training_info` for `Running`: calls `get_distance`,
`get_mean_speed` and `get_spent_calories` in the order of the source. -/
def Running.show_training_info? (r : Running) : Option InfoMessage :=
  r.toTraining.get_distance? >>= fun dist =>
  r.toTraining.get_mean_speed? >>= fun v =>
  r.get_spent_calories? >>= fun c =>
  some ⟨"Running", r.duration, dist, v, c⟩

/-- Checked `show_training_info` for `SportsWalking`. -/
def SportsWalking.show_training_info? (w : SportsWalking) :
    Option InfoMessage :=
  w.toTraining.get_distance? >>= fun dist =>
  w.toTraining.get_mean_speed? >>= fun v =>
  w.get_spent_calories? >>= fun c =>
  some ⟨"SportsWalking", w.duration, dist, v, c⟩

/-- Checked `show_training_info` for `Swimming`. -/
def Swimming.show_training_info? (s : Swimming) : Option InfoMessage :=
  s.get_distance? >>= fun dist =>
  s.get_mean_speed? >>= fun v =>
  s.get_spent_calories? >>= fun c =>
  some ⟨"Swimming", s.duration, dist, v, c⟩

/-! ## Message formatting

`InfoMessage.get_message` renders the five fields into the fixed template
of the source with Python `.3f` fixed-point formatting.  `.3f` rounds the
value to three decimals with ties going to the even last digit
(round-half-even, Python's rounding of floats on formatting) and always
prints exactly three fractional digits. -/

/-- Round a rational to the nearest integer, ties to the even integer
(the rounding Python applies when formatting). -/
def roundHalfEven (q : ℚ) : ℤ :=
  let f : ℤ := ⌊q⌋
  let frac : ℚ := q - f
  if frac < 1 / 2 then f
  else if 1 / 2 < frac then f + 1
  else if f % 2 = 0 then f else f + 1

/-- Left-pad the decimal digits of `n` to width three with zeros. -/
def pad3 (n : ℕ) : String :=
  if n < 10 then "00" ++ toString n
  else if n < 100 then "0" ++ toString n
  else toString n

/-- Python `f-string` formatting `.3f`: sign, integer part, point, and
exactly three fractional digits of the value rounded to a thousandth. -/
def formatFixed3 (q : ℚ) : String :=
  let n : ℤ := roundHalfEven (q * 1000)
  let m : ℕ := n.natAbs
  let body : String := toString (m / 1000) ++ "." ++ pad3 (m % 1000)
  if n < 0 then "-" ++ body else body

/-- `InfoMessage.get_message`: the five adjacent f-strings of the source,
concatenated left to right. -/
def InfoMessage.get_message (m : InfoMessage) : String :=
  ("Тип тренировки: " ++ m.training_type ++ "; ")
    ++ ("Длительность: " ++ formatFixed3 m.duration ++ " ч.; ")
    ++ ("Дистанция: " ++ formatFixed3 m.distance ++ " км; ")
    ++ ("Ср. скорость: " ++ formatFixed3 m.speed ++ " км/ч; ")
    ++ ("Потрачено ккал: " ++ formatFixed3 m.calories ++ ".")

/-- Modelled from the spec: the English message template of section 6,
"Activity type: {name}; Duration: {duration:.3f} h.; Distance:
{distance:.3f} km; Mean speed: {speed:.3f} km/h; Calories burned:
{calories:.3f}.", which the spec asserts is the output line. -/
def specEnglishMessage (m : InfoMessage) : String :=
  "Activity type: " ++ m.training_type
    ++ "; Duration: " ++ formatFixed3 m.duration
    ++ " h.; Distance: " ++ formatFixed3 m.distance
    ++ " km; Mean speed: " ++ formatFixed3 m.speed
    ++ " km/h; Calories burned: " ++ formatFixed3 m.calories ++ "."

/-- The fixed template of the source read as the spec reads its template:
one format string with four `.3f` holes, labels and units as the source
prints them (in Russian). -/
def specRussianMessage (m : InfoMessage) : String :=
  "Тип тренировки: " ++ m.training_type
    ++ "; Длительность: " ++ formatFixed3 m.duration
    ++ " ч.; Дистанция: " ++ formatFixed3 m.distance
    ++ " км; Ср. скорость: " ++ formatFixed3 m.speed
    ++ " км/ч; Потрачено ккал: " ++ formatFixed3 m.calories ++ "."

/-! ## Concrete readings

The example rows of the exercise: `("RUN", [15000, 1, 75])`,
`("WLK", [9000, 1, 75, 180])`, `("SWM", [720, 1, 80, 25, 40])`. -/

/-- The Running reading built from `("RUN", [15000, 1, 75])`. -/
def runExample : Running := ⟨⟨15000, 1, 75⟩⟩

/-- The SportsWalking reading built from `("WLK", [9000, 1, 75, 180])`. -/
def walkExample : SportsWalking := ⟨⟨9000, 1, 75⟩, 180⟩

/-- The Swimming reading built from `("SWM", [720, 1, 80, 25, 40])`. -/
def swimExample : Swimming := ⟨⟨720, 1, 80⟩, 25, 40⟩

/-- A Swimming reading with the stroke count doubled and every other
field as in `swimExample`. -/
def swimExampleDoubled : Swimming := ⟨⟨1440, 1, 80⟩, 25, 40⟩

/-- A SportsWalking reading with positive duration and zero height. -/
def walkZeroHeight : SportsWalking := ⟨⟨9000, 1, 75⟩, 0⟩

/-- The summary record of `runExample`, spelled out. -/
def msgExample : InfoMessage := ⟨"Running", 1, 39 / 4, 39 / 4, 159561 / 200⟩

/-- String append is associative (used to compare the two spellings of
the message template). -/
theorem strAssoc (a b c : String) : a ++ b ++ c = a ++ (b ++ c) :=
  match a, b, c with
  | ⟨la⟩, ⟨lb⟩, ⟨lc⟩ => congrArg String.mk (List.append_assoc la lb lc)

/-- C1: for every reading, `get_spent_calories` equals the spec's
activity-specific formula with its exact constants: Running
`(18 * v + 1.79) * weight / 1000 * duration * 60`, SportsWalking
`(0.035 * weight + (v * 0.278)^2 / (height / 100) * 0.029 * weight)
 * duration * 60`, Swimming `(v + 1.1) * 2 * weight * duration`,
where `v` is the reading's mean speed. -/
theorem calories_match_spec_formulas :
    (∀ r : Running, r.get_spent_calories =
        (18 * r.toTraining.get_mean_speed + 179 / 100)
          * r.weight / 1000 * r.duration * 60) ∧
    (∀ w : SportsWalking, w.get_spent_calories =
        (35 / 1000 * w.weight
            + (w.toTraining.get_mean_speed * (278 / 1000)) ^ 2
              / (w.height / 100) * (29 / 1000) * w.weight)
          * w.duration * 60) ∧
    (∀ s : Swimming, s.get_spent_calories =
        (s.get_mean_speed + 11 / 10) * 2 * s.weight * s.duration) :=
  ⟨fun _ => rfl, fun _ => rfl, fun _ => rfl⟩

/-- C2 counterexample: for the Running reading `(15000, 1, 75)` the code
computes exactly 797.805 kcal, and 797.805 is not the 846.488 the claim
asserts. -/
theorem running_example_calories_not_claimed_value :
    runExample.get_spent_calories = 159561 / 200 ∧
    (159561 / 200 : ℚ) ≠ 846488 / 1000 := by
  constructor
  · norm_num [runExample, Running.get_spent_calories,
      Running.CALORIES_MEAN_SPEED_MULTIPLIER, Running.CALORIES_MEAN_SPEED_SHIFT,
      Training.get_mean_speed, Training.get_distance, Training.LEN_STEP,
      Training.M_IN_KM, Training.MIN_IN_H]
  · norm_num

/-- C2 as amended: the Running reading `(15000, 1, 75)` yields distance
9.750 km, mean speed 9.750 km/h and exactly 797.805 kcal (not 846.488). -/
theorem running_example_metrics :
    runExample.toTraining.get_distance = 9750 / 1000 ∧
    runExample.toTraining.get_mean_speed = 9750 / 1000 ∧
    runExample.get_spent_calories = 797805 / 1000 := by
  refine ⟨?_, ?_, ?_⟩ <;>
    norm_num [runExample, Running.get_spent_calories,
      Running.CALORIES_MEAN_SPEED_MULTIPLIER, Running.CALORIES_MEAN_SPEED_SHIFT,
      Training.get_mean_speed, Training.get_distance, Training.LEN_STEP,
      Training.M_IN_KM, Training.MIN_IN_H]

/-- C3 counterexample: a SportsWalking reading with duration 1 > 0 and
height 0 makes `get_spent_calories` (and hence `show_training_info`)
divide by zero: the checked evaluation returns `none`. -/
theorem walking_zero_height_divides_by_zero :
    0 < walkZeroHeight.duration ∧
    walkZeroHeight.get_spent_calories? = none ∧
    walkZeroHeight.show_training_info? = none := by
  refine ⟨by norm_num [walkZeroHeight], ?_, ?_⟩ <;>
    simp [walkZeroHeight, SportsWalking.get_spent_calories?,
      SportsWalking.show_training_info?, Training.get_mean_speed?,
      Training.get_distance?, qdiv?, Training.M_IN_KM, SportsWalking.CM_IN_M]

/-- C3 as amended: with duration > 0 every operation on Running and
Swimming readings is division-safe, and so are SportsWalking distance and
mean speed; SportsWalking calories and summary additionally need a
nonzero height. -/
theorem metric_operations_division_safe :
    (∀ r : Running, 0 < r.duration →
        r.toTraining.get_distance?.isSome ∧
        r.toTraining.get_mean_speed?.isSome ∧
        r.get_spent_calories?.isSome ∧
        r.show_training_info?.isSome) ∧
    (∀ s : Swimming, 0 < s.duration →
        s.get_distance?.isSome ∧
        s.get_mean_speed?.isSome ∧
        s.get_spent_calories?.isSome ∧
        s.show_training_info?.isSome) ∧
    (∀ w : SportsWalking, 0 < w.duration →
        w.toTraining.get_distance?.isSome ∧
        w.toTraining.get_mean_speed?.isSome ∧
        (w.height ≠ 0 →
          w.get_spent_calories?.isSome ∧ w.show_training_info?.isSome)) := by
  refine ⟨fun r h => ?_, fun s h => ?_, fun w h => ?_⟩
  · simp [Running.get_spent_calories?, Running.show_training_info?,
      Training.get_mean_speed?, Training.get_distance?, qdiv?,
      Training.M_IN_KM, h.ne']
  · simp [Swimming.get_spent_calories?, Swimming.show_training_info?,
      Swimming.get_mean_speed?, Swimming.get_distance?, qdiv?,
      Training.M_IN_KM, h.ne']
  · refine ⟨?_, ?_, fun hh => ⟨?_, ?_⟩⟩ <;>
      simp [SportsWalking.get_spent_calories?, SportsWalking.show_training_info?,
        Training.get_mean_speed?, Training.get_distance?, qdiv?,
        Training.M_IN_KM, SportsWalking.CM_IN_M, h.ne', *]

/-- C3 witness: the three example readings satisfy the hypotheses and
their checked summaries all evaluate. -/
theorem metric_operations_division_safe_witness :
    runExample.show_training_info?.isSome ∧
    swimExample.show_training_info?.isSome ∧
    walkExample.show_training_info?.isSome :=
  ⟨(metric_operations_division_safe.1 runExample
      (by norm_num [runExample])).2.2.2,
   (metric_operations_division_safe.2.1 swimExample
      (by norm_num [swimExample])).2.2.2,
   ((metric_operations_division_safe.2.2 walkExample
      (by norm_num [walkExample])).2.2 (by norm_num [walkExample])).2⟩

/-- C4 counterexample: with the known code "RUN", matching arity 3 and a
negative duration, `read_package` does not fail: it returns the reading. -/
theorem read_package_accepts_negative_duration :
    read_package "RUN" [15000, -1, 75] ≠ Except.error .typeError ∧
    read_package "RUN" [15000, -1, 75] =
      Except.ok (.run ⟨⟨15000, -1, 75⟩⟩) :=
  ⟨fun h => Except.noConfusion h, rfl⟩

/-- C4 as amended: `read_package` performs no domain validation: for a
known code with matching arity it returns the reading even when the
duration is ≤ 0 or some value is negative. -/
theorem read_package_no_domain_validation :
    (∀ a d w : PyFloat, d ≤ 0 ∨ a < 0 ∨ w < 0 →
        read_package "RUN" [a, d, w] = Except.ok (.run ⟨⟨a, d, w⟩⟩)) ∧
    (∀ a d w h : PyFloat, d ≤ 0 ∨ a < 0 ∨ w < 0 ∨ h < 0 →
        read_package "WLK" [a, d, w, h] =
          Except.ok (.wlk ⟨⟨a, d, w⟩, h⟩)) ∧
    (∀ a d w l c : PyFloat, d ≤ 0 ∨ a < 0 ∨ w < 0 ∨ l < 0 ∨ c < 0 →
        read_package "SWM" [a, d, w, l, c] =
          Except.ok (.swm ⟨⟨a, d, w⟩, l, c⟩)) :=
  ⟨fun _ _ _ _ => rfl, fun _ _ _ _ _ => rfl, fun _ _ _ _ _ _ => rfl⟩

/-- C4 witness: a reading with negative duration and weight is accepted. -/
theorem read_package_no_domain_validation_witness :
    read_package "RUN" [15000, -2, -75] =
      Except.ok (.run ⟨⟨15000, -2, -75⟩⟩) :=
  read_package_no_domain_validation.1 15000 (-2) (-75) (Or.inl (by norm_num))

/-- C5: an unknown code always fails with the `KeyError`-tagged error, a
known code with wrong arity always fails with the `TypeError`-tagged
error, and a known code with matching arity (3 for RUN, 4 for WLK, 5 for
SWM) returns a reading of the corresponding kind. -/
theorem read_package_classification :
    (∀ (wt : String) (data : List PyFloat),
        wt ≠ "RUN" → wt ≠ "WLK" → wt ≠ "SWM" →
        read_package wt data = Except.error (.keyError wt)) ∧
    (∀ data : List PyFloat, data.length ≠ 3 →
        read_package "RUN" data = Except.error .typeError) ∧
    (∀ data : List PyFloat, data.length ≠ 4 →
        read_package "WLK" data = Except.error .typeError) ∧
    (∀ data : List PyFloat, data.length ≠ 5 →
        read_package "SWM" data = Except.error .typeError) ∧
    (∀ a d w : PyFloat,
        read_package "RUN" [a, d, w] = Except.ok (.run ⟨⟨a, d, w⟩⟩)) ∧
    (∀ a d w h : PyFloat,
        read_package "WLK" [a, d, w, h] =
          Except.ok (.wlk ⟨⟨a, d, w⟩, h⟩)) ∧
    (∀ a d w l c : PyFloat,
        read_package "SWM" [a, d, w, l, c] =
          Except.ok (.swm ⟨⟨a, d, w⟩, l, c⟩)) := by
  refine ⟨?_, ?_, ?_, ?_,
    fun _ _ _ => rfl, fun _ _ _ _ => rfl, fun _ _ _ _ _ => rfl⟩
  · intro wt data h1 h2 h3
    simp [read_package, h1, h2, h3]
  · intro data h
    rcases data with _ | ⟨a, _ | ⟨d, _ | ⟨w, _ | ⟨x, t⟩⟩⟩⟩ <;>
      simp_all [read_package]
  · intro data h
    rcases data with _ | ⟨a, _ | ⟨d, _ | ⟨w, _ | ⟨x, _ | ⟨y, t⟩⟩⟩⟩⟩ <;>
      simp_all [read_package]
  · intro data h
    rcases data with _ | ⟨a, _ | ⟨d, _ | ⟨w, _ | ⟨x, _ | ⟨y, _ | ⟨z, t⟩⟩⟩⟩⟩⟩ <;>
      simp_all [read_package]

/-- C5 witness: the code "XYZ" fails as unknown, and wrong arities for
each known code fail as parameter-count errors. -/
theorem read_package_classification_witness :
    read_package "XYZ" [1, 2, 3] = Except.error (.keyError "XYZ") ∧
    read_package "RUN" [1, 2] = Except.error .typeError ∧
    read_package "WLK" [1, 2, 3] = Except.error .typeError ∧
    read_package "SWM" [1, 2, 3, 4] = Except.error .typeError :=
  ⟨read_package_classification.1 "XYZ" [1, 2, 3]
      (by decide) (by decide) (by decide),
   read_package_classification.2.1 [1, 2] (by norm_num),
   read_package_classification.2.2.1 [1, 2, 3] (by norm_num),
   read_package_classification.2.2.2.1 [1, 2, 3, 4] (by norm_num)⟩

/-- C6 counterexample: the distance of a Swimming reading is computed
from the stroke count and the overridden step-length constant 1.38, not
from the pool fields: for the example reading it is 0.9936 km, differs
from `length_pool * count_pool / 1000` = 1.0 km, and changes when only
the stroke count changes. -/
theorem swimming_distance_uses_step_constant :
    swimExample.get_distance = 720 * (138 / 100) / 1000 ∧
    swimExample.get_distance ≠
      swimExample.length_pool * swimExample.count_pool / 1000 ∧
    swimExample.length_pool = swimExampleDoubled.length_pool ∧
    swimExample.count_pool = swimExampleDoubled.count_pool ∧
    swimExample.get_distance ≠ swimExampleDoubled.get_distance := by
  refine ⟨?_, ?_, rfl, rfl, ?_⟩ <;>
    norm_num [swimExample, swimExampleDoubled, Swimming.get_distance,
      Swimming.LEN_STEP, Training.M_IN_KM]

/-- C6 as amended: Running and SportsWalking distances are
`steps * 0.65 / 1000`; the Swimming distance uses the overridden
step-length constant, `strokes * 1.38 / 1000`. -/
theorem distance_formulas :
    (∀ r : Running, r.toTraining.get_distance =
        r.action * (65 / 100) / 1000) ∧
    (∀ w : SportsWalking, w.toTraining.get_distance =
        w.action * (65 / 100) / 1000) ∧
    (∀ s : Swimming, s.get_distance = s.action * (138 / 100) / 1000) :=
  ⟨fun _ => rfl, fun _ => rfl, fun _ => rfl⟩

/-- C7: Running and SportsWalking mean speed is distance over duration;
Swimming mean speed is `length_pool * count_pool / 1000 / duration`, and
the Section-8 swimming reading gets 1.0 km/h. -/
theorem mean_speed_formulas :
    (∀ r : Running, r.toTraining.get_mean_speed =
        r.toTraining.get_distance / r.duration) ∧
    (∀ w : SportsWalking, w.toTraining.get_mean_speed =
        w.toTraining.get_distance / w.duration) ∧
    (∀ s : Swimming, s.get_mean_speed =
        s.length_pool * s.count_pool / 1000 / s.duration) ∧
    swimExample.get_mean_speed = 1 := by
  refine ⟨fun _ => rfl, fun _ => rfl, fun _ => rfl, ?_⟩
  norm_num [swimExample, Swimming.get_mean_speed, Training.M_IN_KM]

/-- C8 counterexample: the formatted line for the Running example record
is the fixed Russian-language template of the source, not the English
template the claim states. -/
theorem get_message_is_not_english_template :
    msgExample.get_message =
      "Тип тренировки: Running; Длительность: 1.000 ч.; Дистанция: 9.750 км; Ср. скорость: 9.750 км/ч; Потрачено ккал: 797.805." ∧
    msgExample.get_message ≠ specEnglishMessage msgExample := by
  have f1 : formatFixed3 (1 : ℚ) = "1.000" := by
    have h : roundHalfEven ((1 : ℚ) * 1000) = 1000 := by
      norm_num [roundHalfEven]
    rw [formatFixed3, h]
    rfl
  have f2 : formatFixed3 (39 / 4 : ℚ) = "9.750" := by
    have h : roundHalfEven ((39 / 4 : ℚ) * 1000) = 9750 := by
      norm_num [roundHalfEven]
    rw [formatFixed3, h]
    rfl
  have f3 : formatFixed3 (159561 / 200 : ℚ) = "797.805" := by
    have h : roundHalfEven ((159561 / 200 : ℚ) * 1000) = 797805 := by
      norm_num [roundHalfEven]
    rw [formatFixed3, h]
    rfl
  have hmsg : msgExample.get_message =
      "Тип тренировки: Running; Длительность: 1.000 ч.; Дистанция: 9.750 км; Ср. скорость: 9.750 км/ч; Потрачено ккал: 797.805." := by
    simp only [msgExample, InfoMessage.get_message, f1, f2, f3]
    rfl
  have hspec : specEnglishMessage msgExample =
      "Activity type: Running; Duration: 1.000 h.; Distance: 9.750 km; Mean speed: 9.750 km/h; Calories burned: 797.805." := by
    simp only [msgExample, specEnglishMessage, f1, f2, f3]
    rfl
  refine ⟨hmsg, ?_⟩
  rw [hmsg, hspec]
  decide

/-- C8 as amended: every formatted line is exactly the fixed
Russian-language template of the source, with all four numeric fields
rendered in three-decimal fixed-point. -/
theorem get_message_matches_template :
    ∀ m : InfoMessage, m.get_message = specRussianMessage m := by
  intro m
  cases m with
  | mk t d dist sp cal =>
    have h1 : ("; Длительность: " : String) = "; " ++ "Длительность: " := rfl
    have h2 : (" ч.; Дистанция: " : String) = " ч.; " ++ "Дистанция: " := rfl
    have h3 : (" км; Ср. скорость: " : String) =
        " км; " ++ "Ср. скорость: " := rfl
    have h4 : (" км/ч; Потрачено ккал: " : String) =
        " км/ч; " ++ "Потрачено ккал: " := rfl
    simp only [InfoMessage.get_message, specRussianMessage, strAssoc,
      h1, h2, h3, h4]

/-- C9: Swimming overrides the step length to 1.38 and inherits the
generic steps-times-step-length distance formula, so its distance is
`action * 1.38 / 1000`, depending on the stroke count and the constant. -/
theorem swimming_inherits_distance_with_overridden_step :
    Swimming.LEN_STEP = 138 / 100 ∧
    (∀ s : Swimming, s.get_distance =
        s.action * Swimming.LEN_STEP / Training.M_IN_KM) ∧
    (∀ s : Swimming, s.get_distance = s.action * (138 / 100) / 1000) :=
  ⟨rfl, fun _ => rfl, fun _ => rfl⟩

/-- C10: a reading built from a known code carries the implementing
class name in its summary record: "Running" for RUN, "SportsWalking" for
WLK, "Swimming" for SWM. -/
theorem summary_record_class_names :
    (∀ a d w : PyFloat,
        (read_package "RUN" [a, d, w]).map
          (fun t => t.show_training_info.training_type) =
        Except.ok "Running") ∧
    (∀ a d w h : PyFloat,
        (read_package "WLK" [a, d, w, h]).map
          (fun t => t.show_training_info.training_type) =
        Except.ok "SportsWalking") ∧
    (∀ a d w l c : PyFloat,
        (read_package "SWM" [a, d, w, l, c]).map
          (fun t => t.show_training_info.training_type) =
        Except.ok "Swimming") :=
  ⟨fun _ _ _ => rfl, fun _ _ _ _ => rfl, fun _ _ _ _ _ => rfl⟩
